import Mathlib

/-!
Shallow embedding of GekkoMath (`src/include/gekko_math.h`): a 32-bit
signed fixed-point scalar `Unit` with scale `ONE = 0x8000`, and a
3-component vector `Vec3` built on it.  Machine `int32_t` values are
modelled as `Int` together with an explicit two's-complement wrap
`toInt32`; `int64_t` intermediates are exact (they never overflow for
the magnitudes reachable from 32-bit inputs).  C++ exceptions
(`std::runtime_error`) are modelled with `Except Err`.
-/

namespace Gekko.Math

/-- Two's-complement wrap of an integer into the `int32_t` range
`[-2^31, 2^31)`. -/
def toInt32 (n : Int) : Int := (n + 2 ^ 31) % 2 ^ 32 - 2 ^ 31

/-- The two error conditions of the library: `Division by zero`
(thrown by `Unit::operator/`) and `sqrt of negative number`
(thrown by `Unit::SqrtNewton`). -/
inductive Err where
  | divisionByZero
  | invalidArgument
deriving DecidableEq

/-- Models `struct Unit`: one `int32_t` raw field, interpreted as
`value = raw / ONE`. -/
structure Unit where
  raw : Int
deriving DecidableEq

/-- Models `Unit::ONE = 0x8000` (the scale constant, 2^15). -/
def Unit.ONE : Int := 0x8000

/-- Models `Unit::HALF = 0x4000`. -/
def Unit.HALF : Int := 0x4000

/-- The converting constructor `Unit(int32_t val) : _raw(val * ONE)`:
scaled construction (the multiplication is 32-bit and wraps). -/
def Unit.ofInt (val : Int) : Unit := ⟨toInt32 (val * Unit.ONE)⟩

/-- Models `static Unit From(int32_t val)`: raw construction, no scaling
(the `int32_t` parameter restricts the argument to the 32-bit range,
modelled by wrapping). -/
def Unit.From (val : Int) : Unit := ⟨toInt32 val⟩

/-- Models `bool operator>(const Unit&)`: raw comparison. -/
def Unit.gtU (a b : Unit) : Bool := decide (b.raw < a.raw)

/-- Models `bool operator>=(const Unit&)`. -/
def Unit.geU (a b : Unit) : Bool := decide (b.raw ≤ a.raw)

/-- Models `bool operator<(const Unit&)`. -/
def Unit.ltU (a b : Unit) : Bool := decide (a.raw < b.raw)

/-- Models `bool operator<=(const Unit&)`. -/
def Unit.leU (a b : Unit) : Bool := decide (a.raw ≤ b.raw)

/-- Models `bool operator>(const int32_t&)`: compares the raw value against
the integer argument directly, without scaling. -/
def Unit.gtInt (a : Unit) (n : Int) : Bool := decide (n < a.raw)

/-- Models `bool operator>=(const int32_t&)`. -/
def Unit.geInt (a : Unit) (n : Int) : Bool := decide (n ≤ a.raw)

/-- Models `bool operator<(const int32_t&)`. -/
def Unit.ltInt (a : Unit) (n : Int) : Bool := decide (a.raw < n)

/-- Models `bool operator<=(const int32_t&)`. -/
def Unit.leInt (a : Unit) (n : Int) : Bool := decide (a.raw ≤ n)

/-- Models `bool operator==(const Unit&)`: raw equality. -/
def Unit.eqU (a b : Unit) : Bool := decide (a.raw = b.raw)

/-- Models `bool operator!=(const Unit&)`. -/
def Unit.neU (a b : Unit) : Bool := decide (a.raw ≠ b.raw)

/-- Unary `operator-`: `Unit::From(-_raw)` (wraps at `INT32_MIN`). -/
def Unit.neg (a : Unit) : Unit := Unit.From (-a.raw)

/-- Models `operator+`: `Unit::From(_raw + other._raw)`. -/
def Unit.add (a b : Unit) : Unit := Unit.From (a.raw + b.raw)

/-- Models `operator-`: `Unit::From(_raw - other._raw)`. -/
def Unit.sub (a b : Unit) : Unit := Unit.From (a.raw - b.raw)

/-- Models `operator*`:
`int64_t result = (int64_t)_raw * other._raw;`
`Unit::From((int32_t)((result + (ONE / 2)) / ONE))`.
C++ `/` on integers truncates toward zero (`Int.tdiv`). -/
def Unit.mul (a b : Unit) : Unit :=
  Unit.From ((a.raw * b.raw + Unit.ONE.tdiv 2).tdiv Unit.ONE)

/-- Models `operator/`: throws on a zero-raw divisor; otherwise
`int64_t num = (int64_t)_raw * ONE;`
`int64_t adjust = std::abs(other._raw) / 2;`  (a 32-bit `abs`, which
wraps at `INT32_MIN`, then `int` division by 2)
`Unit::From((int32_t)((num + (other._raw > 0 ? adjust : -adjust)) / other._raw))`. -/
def Unit.div (a b : Unit) : Except Err Unit :=
  if b.raw = 0 then Except.error Err.divisionByZero
  else
    Except.ok (Unit.From
      ((a.raw * Unit.ONE +
        (if 0 < b.raw then (toInt32 (b.raw.natAbs : Int)).tdiv 2
         else -((toInt32 (b.raw.natAbs : Int)).tdiv 2))).tdiv b.raw))

/-- Models `operator/=`: `*this = *this / other; return *this;` under C++
exception semantics.  Returns the value held by the left operand after
the statement together with the exception raised, if any: when the
division throws, the assignment never executes and the left operand
keeps its old value. -/
def Unit.divAssignRun (a b : Unit) : Unit × Option Err :=
  match Unit.div a b with
  | Except.ok q => (q, none)
  | Except.error e => (a, some e)

/-- The initial guess of `SqrtNewton`:
`Unit x = (u._raw >= Unit::ONE ? u : Unit::ONE);`.
In the conditional expression the `int32_t` constant `Unit::ONE` is
converted to `Unit` through the converting constructor `Unit(int32_t)`,
which scales: the guess in the else-branch has raw `ONE * ONE = 2^30`. -/
def Unit.sqrtInitialGuess (u : Unit) : Unit :=
  if Unit.ONE ≤ u.raw then u else Unit.ofInt Unit.ONE

/-- One body execution of the `SqrtNewton` loop:
`Unit next = (x + (u / x)) / 2;` (the division by `2` converts `2`
through the scaling constructor). -/
def Unit.sqrtStep (u x : Unit) : Except Err Unit :=
  match Unit.div u x with
  | Except.error e => Except.error e
  | Except.ok q => Unit.div (Unit.add x q) (Unit.ofInt 2)

/-- The `for (int i = 0; i < MAX_ITER; ++i)` loop of `SqrtNewton`,
with the convergence check `if (next == x) break;`. -/
def Unit.sqrtLoop : Nat → Unit → Unit → Except Err Unit
  | 0, _, x => Except.ok x
  | n + 1, u, x =>
    match Unit.sqrtStep u x with
    | Except.error e => Except.error e
    | Except.ok next => if next.raw = x.raw then Except.ok x else Unit.sqrtLoop n u next

/-- Models `static Unit SqrtNewton(const Unit& u)`: domain check, zero
shortcut (`return 0;` builds the zero scalar through the scaling
constructor), then the bounded Newton iteration with `MAX_ITER = 10`. -/
def Unit.sqrtNewton (u : Unit) : Except Err Unit :=
  if u.raw < 0 then Except.error Err.invalidArgument
  else if u.raw = 0 then Except.ok (Unit.ofInt 0)
  else Unit.sqrtLoop 10 u (Unit.sqrtInitialGuess u)

/-- Models `struct Vec3`: three `Unit` components. -/
structure Vec3 where
  x : Unit
  y : Unit
  z : Unit
deriving DecidableEq

/-- Models `Unit Dot(const Vec3&)`:
`(x * other.x) + (y * other.y) + (z * other.z)` with `Unit`
multiplication and addition, left-associated. -/
def Vec3.Dot (v o : Vec3) : Unit :=
  Unit.add (Unit.add (Unit.mul v.x o.x) (Unit.mul v.y o.y)) (Unit.mul v.z o.z)

/-- Models `Vec3 operator/(const Vec3&)`: componentwise `Unit` division; a
throw from any component propagates. -/
def Vec3.divV (v o : Vec3) : Except Err Vec3 :=
  match Unit.div v.x o.x with
  | Except.error e => Except.error e
  | Except.ok a =>
    match Unit.div v.y o.y with
    | Except.error e => Except.error e
    | Except.ok b =>
      match Unit.div v.z o.z with
      | Except.error e => Except.error e
      | Except.ok c => Except.ok ⟨a, b, c⟩

/-- Models `Vec3 operator/(const Unit&)`: the scalar divisor broadcast to all
three axes. -/
def Vec3.divU (v : Vec3) (o : Unit) : Except Err Vec3 :=
  match Unit.div v.x o with
  | Except.error e => Except.error e
  | Except.ok a =>
    match Unit.div v.y o with
    | Except.error e => Except.error e
    | Except.ok b =>
      match Unit.div v.z o with
      | Except.error e => Except.error e
      | Except.ok c => Except.ok ⟨a, b, c⟩

/-- Models `Vec3& operator/=(const Vec3&)`: `*this = *this / other` under
exception semantics, as in `Unit.divAssignRun`. -/
def Vec3.divAssignVRun (v o : Vec3) : Vec3 × Option Err :=
  match Vec3.divV v o with
  | Except.ok w => (w, none)
  | Except.error e => (v, some e)

/-- Models `Vec3& operator/=(const Unit&)`: the broadcast form, same
exception semantics. -/
def Vec3.divAssignURun (v : Vec3) (o : Unit) : Vec3 × Option Err :=
  match Vec3.divU v o with
  | Except.ok w => (w, none)
  | Except.error e => (v, some e)

/-- Claim-side formula for division (spec wording, to compare with
`Unit.div`): the 32-bit narrowing of `int64(raw a) * SCALE + bias`
integer-divided by `raw b`, where `bias = |raw b| / 2` with the
mathematical absolute value, added when `raw b > 0` and subtracted
when `raw b < 0`. -/
def divClaimRaw (a b : Unit) : Int :=
  toInt32 ((a.raw * Unit.ONE +
    (if 0 < b.raw then (b.raw.natAbs : Int).tdiv 2
     else -((b.raw.natAbs : Int).tdiv 2))).tdiv b.raw)

theorem toInt32_eq_self (n : Int) (h1 : -(2 ^ 31) ≤ n) (h2 : n < 2 ^ 31) :
    toInt32 n = n := by
  unfold toInt32
  omega

theorem divV_error_of_zero (v o : Vec3)
    (h : o.x.raw = 0 ∨ o.y.raw = 0 ∨ o.z.raw = 0) :
    Vec3.divV v o = Except.error Err.divisionByZero := by
  by_cases hx : o.x.raw = 0
  · simp [Vec3.divV, Unit.div, hx]
  · by_cases hy : o.y.raw = 0
    · simp [Vec3.divV, Unit.div, hx, hy]
    · have hz : o.z.raw = 0 := by tauto
      simp [Vec3.divV, Unit.div, hx, hy, hz]

theorem divV_isOk (v o : Vec3) (hx : o.x.raw ≠ 0) (hy : o.y.raw ≠ 0)
    (hz : o.z.raw ≠ 0) : ∃ w, Vec3.divV v o = Except.ok w := by
  simp only [Vec3.divV, Unit.div, if_neg hx, if_neg hy, if_neg hz]
  exact ⟨_, rfl⟩

/-- C1: evaluation of `SqrtNewton` at a failing input.  For the input
with raw value 1 (so 0 < raw < SCALE) the initial guess has raw
`ONE * ONE = 2^30` (logical 32768), not raw `SCALE` (logical 1),
because in the C++ conditional expression the `int32_t` constant
`Unit::ONE` is converted to `Unit` through the scaling constructor.
Consequently `SqrtNewton` of logical 0.5 (raw 16384) returns raw
1048747 (logical about 32.0), nowhere near the true root 0.707. -/
theorem claim_C1_initial_guess_scaled :
    (Unit.sqrtInitialGuess (Unit.From 1)).raw = 1073741824 ∧
    (Unit.sqrtInitialGuess (Unit.From 1)).raw ≠ 32768 ∧
    Unit.sqrtNewton (Unit.From 16384) = Except.ok (Unit.From 1048747) := by
  refine ⟨by decide, by decide, ?_⟩
  rfl

/-- C2 counterexample: at raw(a) = 65536, raw(b) = -2^31 the claim
fails.  The code computes the bias with a 32-bit `std::abs`, which
wraps at `INT32_MIN` to `INT32_MIN`, so after the sign-flip for a
negative divisor the code adds 2^30 and its quotient raw is -1, while
the claim's formula (mathematical `|raw b| / 2 = 2^30`, subtracted)
gives raw 0. -/
theorem claim_C2_counterexample :
    Unit.div (Unit.From 65536) (Unit.From (-2147483648)) =
      Except.ok (Unit.From (-1)) ∧
    divClaimRaw (Unit.From 65536) (Unit.From (-2147483648)) = 0 ∧
    (Unit.From (-1)).raw ≠ 0 := by
  refine ⟨rfl, by decide, by decide⟩

/-- C2 (amended): for every pair of scalars whose divisor raw value is
neither 0 nor -2^31, the raw value of `a / b` is the 32-bit narrowing
of `int64(raw a) * SCALE + bias` integer-divided by `raw b`, where
`bias = |raw b| / 2` with the sign of the bias matching the sign of
`raw b`. -/
theorem claim_C2_div_rounding (a b : Unit) (hb : b.raw ≠ 0)
    (hlo : -(2 ^ 31) < b.raw) (hhi : b.raw < 2 ^ 31) :
    Unit.div a b = Except.ok ⟨divClaimRaw a b⟩ := by
  have habs : toInt32 (b.raw.natAbs : Int) = (b.raw.natAbs : Int) := by
    apply toInt32_eq_self <;> omega
  simp only [Unit.div, divClaimRaw, Unit.From, if_neg hb, habs]

/-- Witness for C2: a concrete instance, logical 10 divided by
logical 2. -/
theorem claim_C2_div_rounding_witness :
    (Unit.From 65536).raw ≠ 0 ∧
    Unit.div (Unit.From 327680) (Unit.From 65536) =
      Except.ok ⟨divClaimRaw (Unit.From 327680) (Unit.From 65536)⟩ :=
  ⟨by decide, claim_C2_div_rounding (Unit.From 327680) (Unit.From 65536)
      (by decide) (by decide) (by decide)⟩

/-- C3: the raw value of `a * b` is the 32-bit narrowing of
`int64(raw a) * raw b + SCALE/2` integer-divided by `SCALE`, the bias
added unconditionally; the concrete conjuncts show a positive half-ulp
tie (raw product +0.5 ulp) and a negative one (raw product -0.5 ulp)
both rounding up, i.e. biased toward positive infinity. -/
theorem claim_C3_mul_rounding (a b : Unit) :
    (Unit.mul a b).raw = toInt32 ((a.raw * b.raw + 16384).tdiv 32768) ∧
    (Unit.mul (Unit.From 1) (Unit.From 16384)).raw = 1 ∧
    (Unit.mul (Unit.From (-1)) (Unit.From 16384)).raw = 0 :=
  ⟨rfl, by decide, by decide⟩

/-- C4: scalar division fails exactly when the divisor's raw value is
zero, and the only error it ever produces is `DivisionByZero`; vector
division fails exactly when some component of the divisor has raw value
zero, with the same single error kind. -/
theorem claim_C4_division_by_zero (a b : Unit) (v o : Vec3) :
    (∀ e, Unit.div a b = Except.error e ↔
      (b.raw = 0 ∧ e = Err.divisionByZero)) ∧
    (∀ e, Vec3.divV v o = Except.error e ↔
      ((o.x.raw = 0 ∨ o.y.raw = 0 ∨ o.z.raw = 0) ∧ e = Err.divisionByZero)) := by
  constructor
  · intro e
    by_cases hb : b.raw = 0
    · simp [Unit.div, hb, eq_comm]
    · simp [Unit.div, hb]
  · intro e
    by_cases h : o.x.raw = 0 ∨ o.y.raw = 0 ∨ o.z.raw = 0
    · rw [divV_error_of_zero v o h]
      simp [h, eq_comm]
    · push_neg at h
      obtain ⟨w, hw⟩ := divV_isOk v o h.1 h.2.1 h.2.2
      rw [hw]
      simp [h.1, h.2.1, h.2.2]

/-- C5: `SqrtNewton` of a negative-raw scalar fails with the
domain error, and of the zero-raw scalar returns the zero scalar
(the early return before the Newton loop). -/
theorem claim_C5_sqrt_domain (u : Unit) :
    (u.raw < 0 → Unit.sqrtNewton u = Except.error Err.invalidArgument) ∧
    (u.raw = 0 → Unit.sqrtNewton u = Except.ok (Unit.From 0)) := by
  constructor
  · intro h
    simp [Unit.sqrtNewton, h]
  · intro h
    simp [Unit.sqrtNewton, h]
    rfl

/-- Witness for C5: raw -1 errors, raw 0 returns zero. -/
theorem claim_C5_sqrt_domain_witness :
    Unit.sqrtNewton (Unit.From (-1)) = Except.error Err.invalidArgument ∧
    Unit.sqrtNewton (Unit.From 0) = Except.ok (Unit.From 0) :=
  ⟨(claim_C5_sqrt_domain (Unit.From (-1))).1 (by decide),
   (claim_C5_sqrt_domain (Unit.From 0)).2 (by decide)⟩

/-- C6: the four ordering operators against a plain integer compare
the scalar's raw value directly against the integer, without scaling;
the two concrete conjuncts show this is distinct from scalar-to-scalar
comparison (logical 1 exceeds the bare integer 2 raw-wise, yet logical
1 does not exceed logical 2). -/
theorem claim_C6_raw_ordering (a : Unit) (n : Int) :
    (Unit.gtInt a n = true ↔ a.raw > n) ∧
    (Unit.geInt a n = true ↔ a.raw ≥ n) ∧
    (Unit.ltInt a n = true ↔ a.raw < n) ∧
    (Unit.leInt a n = true ↔ a.raw ≤ n) ∧
    Unit.gtInt (Unit.ofInt 1) 2 = true ∧
    Unit.gtU (Unit.ofInt 1) (Unit.ofInt 2) = false := by
  refine ⟨?_, ?_, ?_, ?_, by decide, by decide⟩ <;>
    simp [Unit.gtInt, Unit.geInt, Unit.ltInt, Unit.leInt]

/-- C7: `a + (-a)` is the zero scalar `FromInteger(0)` for every
representable scalar, under the 32-bit wraparound semantics of raw
negation and raw addition. -/
theorem claim_C7_add_neg_cancel (a : Unit) (h1 : -(2 ^ 31) ≤ a.raw)
    (h2 : a.raw < 2 ^ 31) :
    Unit.add a (Unit.neg a) = Unit.ofInt 0 := by
  simp only [Unit.add, Unit.neg, Unit.From, Unit.ofInt, Unit.ONE]
  congr 1
  unfold toInt32
  omega

/-- Witness for C7 at the scalar of logical value 5. -/
theorem claim_C7_add_neg_cancel_witness :
    -(2 ^ 31) ≤ (Unit.ofInt 5).raw ∧ (Unit.ofInt 5).raw < 2 ^ 31 ∧
    Unit.add (Unit.ofInt 5) (Unit.neg (Unit.ofInt 5)) = Unit.ofInt 0 :=
  ⟨by decide, by decide,
   claim_C7_add_neg_cancel (Unit.ofInt 5) (by decide) (by decide)⟩

/-- C8: the dot product is the left-associated sum of the three
per-axis products using the scalar type's own multiplication and
addition, and `Dot((1,2,3),(4,5,6)) = FromInteger(32)`. -/
theorem claim_C8_dot (v o : Vec3) :
    Vec3.Dot v o =
      Unit.add (Unit.add (Unit.mul v.x o.x) (Unit.mul v.y o.y))
        (Unit.mul v.z o.z) ∧
    Vec3.Dot ⟨Unit.ofInt 1, Unit.ofInt 2, Unit.ofInt 3⟩
        ⟨Unit.ofInt 4, Unit.ofInt 5, Unit.ofInt 6⟩ = Unit.ofInt 32 :=
  ⟨rfl, by decide⟩

/-- C9: equality between a scalar and a plain integer goes through the
scaling constructor, so it holds exactly when the raw value is
`n * SCALE`, while the ordering operators against an integer compare
the raw value unscaled. -/
theorem claim_C9_int_equality_scaled (a : Unit) (n : Int)
    (h1 : -(2 ^ 16) ≤ n) (h2 : n < 2 ^ 16) :
    (Unit.eqU a (Unit.ofInt n) = true ↔ a.raw = n * 32768) ∧
    (Unit.gtInt a n = true ↔ a.raw > n) := by
  have hofs : (Unit.ofInt n).raw = n * 32768 := by
    show toInt32 (n * Unit.ONE) = n * 32768
    rw [show Unit.ONE = (32768 : Int) from rfl]
    apply toInt32_eq_self <;> omega
  constructor
  · simp [Unit.eqU, hofs]
  · simp [Unit.gtInt]

/-- Witness for C9 at the scalar of logical value 7 and the
integer 7: equality holds (raw 229376 = 7 * 32768) and the unscaled
raw ordering against 7 holds as well. -/
theorem claim_C9_int_equality_scaled_witness :
    -(2 ^ 16) ≤ (7 : Int) ∧ (7 : Int) < 2 ^ 16 ∧
    ((Unit.eqU (Unit.ofInt 7) (Unit.ofInt 7) = true ↔
      (Unit.ofInt 7).raw = 7 * 32768) ∧
     (Unit.gtInt (Unit.ofInt 7) 7 = true ↔ (Unit.ofInt 7).raw > 7)) :=
  ⟨by decide, by decide,
   claim_C9_int_equality_scaled (Unit.ofInt 7) 7 (by decide) (by decide)⟩

/-- C10: compound division assignment is atomic on error: with a
zero-raw divisor the run yields the `DivisionByZero` error and leaves
the left operand unchanged, for the scalar form and both vector
forms (vector/vector and vector/scalar). -/
theorem claim_C10_div_assign_atomic :
    (∀ a b : Unit, b.raw = 0 →
      Unit.divAssignRun a b = (a, some Err.divisionByZero)) ∧
    (∀ v o : Vec3, (o.x.raw = 0 ∨ o.y.raw = 0 ∨ o.z.raw = 0) →
      Vec3.divAssignVRun v o = (v, some Err.divisionByZero)) ∧
    (∀ v : Vec3, ∀ b : Unit, b.raw = 0 →
      Vec3.divAssignURun v b = (v, some Err.divisionByZero)) := by
  refine ⟨?_, ?_, ?_⟩
  · intro a b hb
    simp [Unit.divAssignRun, Unit.div, hb]
  · intro v o h
    simp [Vec3.divAssignVRun, divV_error_of_zero v o h]
  · intro v b hb
    simp [Vec3.divAssignURun, Vec3.divU, Unit.div, hb]

/-- Witness for C10: a scalar, a vector/vector and a vector/scalar
compound division by a zero-raw divisor each report the error and
leave the left operand as it was. -/
theorem claim_C10_div_assign_atomic_witness :
    Unit.divAssignRun (Unit.From 3) (Unit.From 0) =
      (Unit.From 3, some Err.divisionByZero) ∧
    Vec3.divAssignVRun ⟨Unit.From 1, Unit.From 2, Unit.From 3⟩
        ⟨Unit.From 4, Unit.From 0, Unit.From 6⟩ =
      (⟨Unit.From 1, Unit.From 2, Unit.From 3⟩, some Err.divisionByZero) ∧
    Vec3.divAssignURun ⟨Unit.From 1, Unit.From 2, Unit.From 3⟩ (Unit.From 0) =
      (⟨Unit.From 1, Unit.From 2, Unit.From 3⟩, some Err.divisionByZero) :=
  ⟨claim_C10_div_assign_atomic.1 (Unit.From 3) (Unit.From 0) (by decide),
   claim_C10_div_assign_atomic.2.1 ⟨Unit.From 1, Unit.From 2, Unit.From 3⟩
     ⟨Unit.From 4, Unit.From 0, Unit.From 6⟩ (by decide),
   claim_C10_div_assign_atomic.2.2 ⟨Unit.From 1, Unit.From 2, Unit.From 3⟩
     (Unit.From 0) (by decide)⟩

end Gekko.Math
